import Mathlib

/-!
Verification of `mycroft/util/log.py` (HolmesV): a logging facade with
stack-derived logger names, a one-shot custom-name override, an `init`
routine reading `log_level` from configuration, and a fixed output format.

The Python `logging` standard-library primitives used by the module
(`getLevelName`, `Logger.setLevel` via `_checkLevel`, `Logger.addHandler`,
`Logger.getEffectiveLevel`/`isEnabledFor`, `Handler` dispatch) are embedded
faithfully at the level of detail the module exercises.
-/

set_option autoImplicit false

namespace HolmesV

/-! ## Severity levels of the logging primitive -/

def DEBUG : Int := 10
def INFO : Int := 20
def WARNING : Int := 30
def ERROR : Int := 40
def CRITICAL : Int := 50
def NOTSET : Int := 0

/-- The `_nameToLevel` table of the logging primitive: maps a severity name
to its numeric level, or `none` for an unrecognized name. -/
def nameToLevel (s : String) : Option Int :=
  if s = "CRITICAL" then some 50
  else if s = "FATAL" then some 50
  else if s = "ERROR" then some 40
  else if s = "WARN" then some 30
  else if s = "WARNING" then some 30
  else if s = "INFO" then some 20
  else if s = "DEBUG" then some 10
  else if s = "NOTSET" then some 0
  else none

/-- A Python value that is either a numeric level or a string: the logging
primitive's `getLevelName` returns an `int` for a known severity name and a
`str` otherwise, and `LOG.level` holds whatever it returned. -/
inductive PyLevel where
  | num (n : Int)
  | txt (s : String)
deriving DecidableEq, Repr

/-- `logging.getLevelName` applied to a string argument: a known severity
name resolves through `_nameToLevel` to its number; an unknown name yields
the string `"Level " + name` (it does not fail and does not yield zero). -/
def getLevelName (s : String) : PyLevel :=
  match nameToLevel s with
  | some n => .num n
  | none => .txt ("Level " ++ s)

/-- `logging._checkLevel`, used by `Logger.setLevel`: an `int` passes
through; a string must be a key of `_nameToLevel`, otherwise a
`ValueError("Unknown level: ...")` is raised. -/
def checkLevel : PyLevel → Except String Int
  | .num n => .ok n
  | .txt s =>
    match nameToLevel s with
    | some n => .ok n
    | none => .error ("Unknown level: " ++ s)

/-! ## Loggers and the registry -/

/-- The shared class-level handler `LOG.handler` (a single
`StreamHandler(sys.stdout)` object), identified by a token. Handler
equality in `addHandler`'s membership test is object identity. -/
def sharedHandler : Nat := 0

/-- An underlying `logging.Logger`: its own level (`NOTSET = 0` when unset),
its `propagate` flag, and its attached handlers (by identity token).
A freshly created logger has level `NOTSET`, `propagate = True` and no
handlers. -/
structure Logger where
  level : Int := 0
  propagate : Bool := true
  handlers : List Nat := []
deriving DecidableEq, Repr

/-- `Logger.addHandler`: appends the handler only if it is not already
attached (the primitive checks `hdlr in self.handlers` before appending). -/
def addHandler (l : Logger) (h : Nat) : Logger :=
  if h ∈ l.handlers then l else { l with handlers := l.handlers ++ [h] }

/-- Global state of the `LOG` class plus the logging registry:
`LOG.level` (which may hold a number or a string, as `getLevelName`
returned it), `LOG._custom_name`, the root logger (what `getLogger("")`
returns, since `""` is falsy), and the named loggers created so far. -/
structure LogState where
  level : PyLevel
  custom : Option String
  root : Logger
  named : List (String × Logger)
deriving DecidableEq, Repr

/-- State at module import: `LOG.level = getLevelName("INFO") = 20`,
no custom name, the root logger at its default level `WARNING = 30` with
default `propagate` and no handlers, and no named loggers. -/
def initState : LogState :=
  { level := .num 20
  , custom := none
  , root := { level := 30 }
  , named := [] }

def lookupLogger : List (String × Logger) → String → Option Logger
  | [], _ => none
  | (k, v) :: rest, name => if k = name then some v else lookupLogger rest name

def updateLogger : List (String × Logger) → String → Logger → List (String × Logger)
  | [], name, l => [(name, l)]
  | (k, v) :: rest, name, l =>
    if k = name then (name, l) :: rest else (k, v) :: updateLogger rest name l

/-- The logger registered under `name` (the root for `""`), or a fresh
logger if none is registered: what `logging.getLogger(name)` returns. -/
def getLoggerRec (st : LogState) (name : String) : Logger :=
  if name = "" then st.root else (lookupLogger st.named name).getD {}

/-- Store back a (mutated) logger object under its name. -/
def setLoggerRec (st : LogState) (name : String) (l : Logger) : LogState :=
  if name = "" then { st with root := l }
  else { st with named := updateLogger st.named name l }

/-- Split a character list at every `'.'` (the hierarchy separator). -/
def splitDots : List Char → List (List Char)
  | [] => [[]]
  | c :: rest =>
    if c = '.' then [] :: splitDots rest
    else
      match splitDots rest with
      | [] => [[c]]
      | p :: ps => (c :: p) :: ps

/-- Re-join name parts with `'.'`. -/
def joinDots : List String → String
  | [] => ""
  | [p] => p
  | p :: rest => p ++ "." ++ joinDots rest

/-- Proper dotted ancestors of a logger name, nearest first:
`"a.b.c"` has ancestors `["a.b", "a"]`; a name without a dot has none.
These are the intermediate parents the logging hierarchy walks before
reaching the root. -/
def dottedAncestors (name : String) : List String :=
  let parts := (splitDots name.data).map String.mk
  (List.range (parts.length - 1)).reverse.map
    (fun i => joinDots (parts.take (i + 1)))

def firstNonzero : List Int → Int
  | [] => 0
  | l :: rest => if l ≠ 0 then l else firstNonzero rest

/-- `Logger.getEffectiveLevel`: the first non-`NOTSET` level walking from
the logger itself through its existing dotted ancestors up to the root;
`NOTSET` if every logger on the chain is unset. Ancestors that were never
created are skipped (they are placeholders in the hierarchy). -/
def getEffectiveLevel (st : LogState) (name : String) : Int :=
  if name = "" then st.root.level
  else
    let own := ((lookupLogger st.named name).getD {}).level
    let ancLevels := (dottedAncestors name).filterMap
      (fun a => (lookupLogger st.named a).map Logger.level)
    firstNonzero (own :: (ancLevels ++ [st.root.level]))

/-- `Logger.isEnabledFor(sev)`: the record is emitted when the severity is
at least the effective level. -/
def isEnabledFor (st : LogState) (name : String) (sev : Int) : Bool :=
  getEffectiveLevel st name ≤ sev

/-! ## The LOG class -/

/-- `LOG.create_logger(name)`: fetch-or-create the logger for exactly
`name`, set `propagate = False`, and call `addHandler(cls.handler)`
unconditionally (`create_logger` itself performs no already-attached
check; the primitive's `addHandler` does). Returns the updated state and
the logger object handed back to the caller. -/
def create_logger (st : LogState) (name : String) : LogState × Logger :=
  let logger := getLoggerRec st name
  let logger := { logger with propagate := false }
  let logger := addHandler logger sharedHandler
  (setLoggerRec st name logger, logger)

def lookupStr : List (String × String) → String → Option String
  | [], _ => none
  | (k, v) :: rest, key => if k = key then some v else lookupStr rest key

/-- `LOG.init()`: reads `config.get("log_level", "INFO") or "INFO"` (the
`or` replaces a falsy — empty — configured value by `"INFO"`), stores
`getLevelName` of it into `cls.level`, then runs
`cls.create_logger("").setLevel(cls.level)`. `setLevel` raises
`ValueError` when handed a string that is not a severity name, which
propagates out of `init`; the `Except` error carries that message.
The configuration mapping is passed as an explicit association list. -/
def LOG_init (st : LogState) (config : List (String × String)) : Except String LogState :=
  let raw := (lookupStr config "log_level").getD "INFO"
  let lvlName := if raw = "" then "INFO" else raw
  let lv := getLevelName lvlName
  let st := { st with level := lv }
  let (st, _) := create_logger st ""
  match checkLevel lv with
  | .error e => .error e
  | .ok n => .ok (setLoggerRec st "" { getLoggerRec st "" with level := n })

/-- `LOG.__init__(name)`: `LOG("custom")` stores the name into the
class-level `_custom_name` field; `LOG(None)` stores `None` there, which
is indistinguishable from the field never having been set. -/
def LOG_call (st : LogState) (name : Option String) : LogState :=
  { st with custom := name }

/-! ## Stack inspection and name resolution -/

/-- One record of `inspect.stack()` as `_log` uses it: `record[0]`'s module
as resolved by `inspect.getmodule` (its `__name__`, or `none` when no
module can be determined), `record[3]` (the function name) and `record[2]`
(the line number). -/
structure FrameRecord where
  module : Option String
  function : String
  line : Nat
deriving DecidableEq, Repr

/-- The outcome of `inspect.stack()` at the point `_log` runs: either the
list of frame records (index 0 is `_log` itself, index 1 the severity
method, index 2 the original caller), or an exception while walking the
stack (`Except.error`). -/
abbrev StackOutcome := Except Unit (List FrameRecord)

/-- The name-resolution step of `LOG._log`: a non-`None` `_custom_name` is
used and cleared; otherwise `stack[2]` supplies
`module_name + ":" + record[3] + ":" + str(record[2])`, where a missing
module gives `module_name = ""`; any exception on this path — the stack
walk failing, or the stack having no index 2 (`IndexError`) — is caught
and the sentinel `"HolmesV"` is used. Returns the resolved name and the
new `_custom_name` field (always cleared). -/
def resolveName (custom : Option String) (stack : StackOutcome) : String × Option String :=
  match custom with
  | some n => (n, none)
  | none =>
    let name :=
      match stack with
      | .error _ => "HolmesV"
      | .ok frames =>
        match frames[2]? with
        | none => "HolmesV"
        | some record =>
          let module_name := record.module.getD ""
          module_name ++ ":" ++ record.function ++ ":" ++ toString record.line
    (name, none)

/-- One record handed to the handler: the logger name it was emitted
under, its numeric severity, and the message. -/
structure EmittedRecord where
  name : String
  levelno : Int
  message : String
deriving DecidableEq, Repr

/-- The observable outcome of one `LOG._log` call: the state afterwards,
the name passed to `create_logger`, and the records emitted (one per
handler attached to the acquired logger when the severity is enabled,
none otherwise — the severity method body is
`if self.isEnabledFor(lvl): self._log(...)`, and `callHandlers` with
`propagate = False` dispatches to the logger's own handlers only, each of
which has handler level `NOTSET`). -/
structure LogResult where
  st : LogState
  loggerName : String
  emitted : List EmittedRecord
deriving DecidableEq, Repr

/-- `LOG._log(func, *args)`: resolve the name (consuming any custom name),
acquire the logger via `create_logger`, then invoke the bound
`logging.Logger` severity method on it. `sev` is the numeric severity of
the method copied from `logging.Logger` (`exception` logs at `ERROR`).
`stack` is the call-stack environment at this invocation. -/
def LOG_log (st : LogState) (stack : StackOutcome) (sev : Int) (msg : String) : LogResult :=
  let (name, custom) := resolveName st.custom stack
  let st := { st with custom := custom }
  let (st, logger) := create_logger st name
  let emitted :=
    if isEnabledFor st name sev then
      logger.handlers.map (fun _ => ({ name := name, levelno := sev, message := msg } : EmittedRecord))
    else []
  { st := st, loggerName := name, emitted := emitted }

/-- `LOG.debug` -/
def LOG_debug (st : LogState) (stack : StackOutcome) (msg : String) : LogResult :=
  LOG_log st stack DEBUG msg

/-- `LOG.info` -/
def LOG_info (st : LogState) (stack : StackOutcome) (msg : String) : LogResult :=
  LOG_log st stack INFO msg

/-- `LOG.warning` -/
def LOG_warning (st : LogState) (stack : StackOutcome) (msg : String) : LogResult :=
  LOG_log st stack WARNING msg

/-- `LOG.error` -/
def LOG_error (st : LogState) (stack : StackOutcome) (msg : String) : LogResult :=
  LOG_log st stack ERROR msg

/-- `LOG.exception` (logs at severity `ERROR`) -/
def LOG_exception (st : LogState) (stack : StackOutcome) (msg : String) : LogResult :=
  LOG_log st stack ERROR msg

/-! ## Output formatting

`LOG.log_message_format` is the brace-style format
`asctime | levelname (width 8) | process (width 5) | name | message`
with a literal `" | "` between fields. Brace-format semantics: a string
field with a bare width is left-aligned and padded on the right with
spaces up to the width; an integer field with a bare width is
right-aligned and padded on the left with spaces; neither is truncated
when longer than the width. -/

/-- Pad with spaces on the left up to width `w` (right-alignment of an
integer field); a longer value is kept whole. -/
def padLeftTo (w : Nat) (s : String) : String :=
  String.mk (List.replicate (w - s.length) ' ') ++ s

/-- Pad with spaces on the right up to width `w` (left-alignment of a
string field); a longer value is kept whole. -/
def padRightTo (w : Nat) (s : String) : String :=
  s ++ String.mk (List.replicate (w - s.length) ' ')

/-- Zero-padding of a printf `%03d`-style field. -/
def padZeroTo (w : Nat) (s : String) : String :=
  String.mk (List.replicate (w - s.length) '0') ++ s

/-- `record.levelname` for the numeric levels the module's methods use. -/
def levelToName (n : Int) : String :=
  if n = 50 then "CRITICAL"
  else if n = 40 then "ERROR"
  else if n = 30 then "WARNING"
  else if n = 20 then "INFO"
  else if n = 10 then "DEBUG"
  else if n = 0 then "NOTSET"
  else "Level " ++ toString n

/-- `Formatter.formatTime` under `default_msec_format = "%s.%03d"`: the
second-precision time string followed by `.` and the milliseconds
zero-padded to three digits. -/
def formatAsctime (secondsPart : String) (msecs : Nat) : String :=
  secondsPart ++ "." ++ padZeroTo 3 (toString msecs)

/-- Rendering one record through `LOG.log_message_format`:
`asctime`, the level name in a width-8 left-aligned field, the process id
in a width-5 right-aligned field, the logger name and the message,
pipe-delimited. -/
def formatLine (asctime levelname : String) (process : Nat) (name message : String) : String :=
  asctime ++ " | " ++ padRightTo 8 levelname ++ " | " ++ padLeftTo 5 (toString process)
    ++ " | " ++ name ++ " | " ++ message

/-! ## Helper lemmas -/

theorem mem_addHandler (l : Logger) (h : Nat) : h ∈ (addHandler l h).handlers := by
  simp only [addHandler]
  split
  · assumption
  · simp

theorem addHandler_level (l : Logger) (h : Nat) : (addHandler l h).level = l.level := by
  simp only [addHandler]
  split <;> rfl

theorem lookupLogger_mem {l : List (String × Logger)} {name : String} {v : Logger}
    (h : lookupLogger l name = some v) : (name, v) ∈ l := by
  induction l with
  | nil => simp [lookupLogger] at h
  | cons p rest ih =>
    obtain ⟨k, w⟩ := p
    simp only [lookupLogger] at h
    split at h
    · next hk =>
      cases h
      subst hk
      exact List.mem_cons_self _ _
    · exact List.mem_cons_of_mem _ (ih h)

theorem mem_updateLogger {l : List (String × Logger)} {name : String} {v : Logger}
    {p : String × Logger} (h : p ∈ updateLogger l name v) : p = (name, v) ∨ p ∈ l := by
  induction l with
  | nil =>
    simp [updateLogger] at h
    exact Or.inl h
  | cons q rest ih =>
    obtain ⟨k, w⟩ := q
    simp only [updateLogger] at h
    split at h
    · rcases List.mem_cons.mp h with h1 | h1
      · exact Or.inl h1
      · exact Or.inr (List.mem_cons_of_mem _ h1)
    · rcases List.mem_cons.mp h with h1 | h1
      · exact Or.inr (h1 ▸ List.mem_cons_self _ _)
      · rcases ih h1 with h2 | h2
        · exact Or.inl h2
        · exact Or.inr (List.mem_cons_of_mem _ h2)

theorem lookupLogger_updateLogger_self (l : List (String × Logger)) (name : String)
    (v : Logger) : lookupLogger (updateLogger l name v) name = some v := by
  induction l with
  | nil => simp [updateLogger, lookupLogger]
  | cons q rest ih =>
    obtain ⟨k, w⟩ := q
    simp only [updateLogger]
    split
    · simp [lookupLogger]
    · next hk =>
      simp only [lookupLogger]
      rw [if_neg hk]
      exact ih

theorem firstNonzero_append_zeros {zs : List Int} (r : Int) (h : ∀ z ∈ zs, z = 0) :
    firstNonzero (zs ++ [r]) = r := by
  induction zs with
  | nil =>
    simp only [List.nil_append, firstNonzero]
    split
    · rfl
    · next hr =>
      simp only [ne_eq, not_not] at hr
      simp [hr]
  | cons z rest ih =>
    have hz : z = 0 := h z (List.mem_cons_self _ _)
    simp only [List.cons_append, firstNonzero, hz]
    simp only [ne_eq, not_true_eq_false, if_neg, not_not]
    exact ih fun x hx => h x (List.mem_cons_of_mem _ hx)

theorem getEffectiveLevel_eq_root (st : LogState)
    (h : ∀ p ∈ st.named, p.2.level = 0) (name : String) :
    getEffectiveLevel st name = st.root.level := by
  simp only [getEffectiveLevel]
  split
  · rfl
  · have hown : ((lookupLogger st.named name).getD {}).level = 0 := by
      cases hl : lookupLogger st.named name with
      | none => rfl
      | some v => exact h _ (lookupLogger_mem hl)
    have hanc : ∀ z ∈ (dottedAncestors name).filterMap
        (fun a => (lookupLogger st.named a).map Logger.level), z = 0 := by
      intro z hz
      rcases List.mem_filterMap.mp hz with ⟨a, _, ha⟩
      cases hl : lookupLogger st.named a with
      | none => rw [hl] at ha; cases ha
      | some v =>
        rw [hl] at ha
        cases ha
        exact h _ (lookupLogger_mem hl)
    have : (((lookupLogger st.named name).getD {}).level ::
        ((dottedAncestors name).filterMap
          (fun a => (lookupLogger st.named a).map Logger.level) ++ [st.root.level]))
        = (((lookupLogger st.named name).getD {}).level ::
        (dottedAncestors name).filterMap
          (fun a => (lookupLogger st.named a).map Logger.level)) ++ [st.root.level] := by
      simp
    rw [this]
    refine firstNonzero_append_zeros _ ?_
    intro z hz
    rcases List.mem_cons.mp hz with h1 | h1
    · exact h1 ▸ hown
    · exact hanc _ h1

theorem create_logger_named_zero (st : LogState) (name : String)
    (h : ∀ p ∈ st.named, p.2.level = 0) :
    ∀ p ∈ (create_logger st name).1.named, p.2.level = 0 := by
  intro p hp
  simp only [create_logger, setLoggerRec] at hp
  split at hp
  · exact h p hp
  · next hne =>
    rcases mem_updateLogger hp with h1 | h1
    · subst h1
      simp only [addHandler_level, getLoggerRec, if_neg hne]
      cases hl : lookupLogger st.named name with
      | none => simp
      | some v => simpa using h _ (lookupLogger_mem hl)
    · exact h p h1

theorem create_logger_root_level (st : LogState) (name : String) :
    (create_logger st name).1.root.level = st.root.level := by
  simp only [create_logger, setLoggerRec, getLoggerRec]
  split
  · next he => simp [he, addHandler_level]
  · next he => simp [if_neg he]

theorem create_logger_handlers_ne (st : LogState) (name : String) :
    (create_logger st name).2.handlers ≠ [] := by
  simp only [create_logger]
  exact List.ne_nil_of_mem (mem_addHandler _ _)

/-- The stack-derived branch of name resolution. -/
theorem resolveName_stack {frames : List FrameRecord} {r : FrameRecord}
    (hr : frames[2]? = some r) :
    resolveName none (.ok frames)
      = (r.module.getD "" ++ ":" ++ r.function ++ ":" ++ toString r.line, none) := by
  simp [resolveName, hr]

theorem addHandler_propagate (l : Logger) (h : Nat) :
    (addHandler l h).propagate = l.propagate := by
  simp only [addHandler]
  split <;> rfl

theorem create_logger_custom (st : LogState) (name : String) :
    (create_logger st name).1.custom = st.custom := by
  simp only [create_logger, setLoggerRec]
  split <;> rfl

theorem resolveName_snd (c : Option String) (stack : StackOutcome) :
    (resolveName c stack).2 = none := by
  cases c <;> simp [resolveName]

theorem LOG_log_loggerName (st : LogState) (stack : StackOutcome) (sev : Int)
    (msg : String) :
    (LOG_log st stack sev msg).loggerName = (resolveName st.custom stack).1 := by
  rcases he : resolveName st.custom stack with ⟨n, cu⟩
  simp [LOG_log, he]

theorem LOG_log_custom (st : LogState) (stack : StackOutcome) (sev : Int)
    (msg : String) : (LOG_log st stack sev msg).st.custom = none := by
  rcases he : resolveName st.custom stack with ⟨n, cu⟩
  have : cu = none := by
    have := resolveName_snd st.custom stack
    rw [he] at this
    exact this
  subst this
  simp [LOG_log, he, create_logger_custom]

theorem colon_mem_stack_name (a b : String) (n : Nat) :
    ':' ∈ (a ++ ":" ++ b ++ ":" ++ toString n).data := by
  have h : ':' ∈ (":" : String).data := by decide
  simp only [String.data_append, List.mem_append]
  tauto

theorem stack_name_ne_sentinel (a b : String) (n : Nat) :
    a ++ ":" ++ b ++ ":" ++ toString n ≠ "HolmesV" := by
  intro h
  have hm := colon_mem_stack_name a b n
  rw [h] at hm
  exact absurd hm (by decide)

/-- A name resolved with no custom override is the sentinel or contains a
colon, so it can never equal a colon-free non-sentinel string. -/
theorem resolved_stack_name_ne (c : String) (stack : StackOutcome)
    (hc : ':' ∉ c.data) (hs : c ≠ "HolmesV") :
    (resolveName none stack).1 ≠ c := by
  cases stack with
  | error e =>
    simpa [resolveName] using Ne.symm hs
  | ok frames =>
    simp only [resolveName]
    cases h2 : frames[2]? with
    | none => simpa using Ne.symm hs
    | some r =>
      intro h
      exact hc (h ▸ colon_mem_stack_name (r.module.getD "") r.function r.line)

theorem data_head_append_Level (s : String) :
    ("Level " ++ s).data.head? = some 'L' := by
  have h : "Level ".data = ['L', 'e', 'v', 'e', 'l', ' '] := rfl
  rw [String.data_append, h]
  rfl

/-- `"Level " + s` is never itself a severity name, so `_checkLevel`
rejects the value `getLevelName` produced for an unknown name. -/
theorem nameToLevel_Level (s : String) : nameToLevel ("Level " ++ s) = none := by
  have key : ∀ t : String, t.data.head? ≠ some 'L' → "Level " ++ s ≠ t := by
    intro t ht h
    exact ht (h ▸ data_head_append_Level s)
  simp only [nameToLevel]
  rw [if_neg (key "CRITICAL" (by decide)), if_neg (key "FATAL" (by decide)),
    if_neg (key "ERROR" (by decide)), if_neg (key "WARN" (by decide)),
    if_neg (key "WARNING" (by decide)), if_neg (key "INFO" (by decide)),
    if_neg (key "DEBUG" (by decide)), if_neg (key "NOTSET" (by decide))]

/-- Closed form of `LOG.init`: the configured (or defaulted) level name is
looked up; a known name yields the new state with that numeric level on
`LOG.level` and on the root logger; an unknown name raises
`ValueError("Unknown level: Level <name>")` out of `setLevel`. -/
theorem LOG_init_eq (st : LogState) (config : List (String × String)) :
    LOG_init st config =
      (let raw := (lookupStr config "log_level").getD "INFO"
       let lvlName := if raw = "" then "INFO" else raw
       match nameToLevel lvlName with
       | some n =>
         .ok { level := .num n, custom := st.custom,
               root := { level := n, propagate := false,
                         handlers := (addHandler { st.root with propagate := false }
                           sharedHandler).handlers },
               named := st.named }
       | none => .error ("Unknown level: " ++ ("Level " ++ lvlName))) := by
  simp only [LOG_init, getLevelName]
  cases hn : nameToLevel (if ((lookupStr config "log_level").getD "INFO") = ""
      then "INFO" else (lookupStr config "log_level").getD "INFO") with
  | some n =>
    simp only [checkLevel, create_logger, setLoggerRec, getLoggerRec, if_pos rfl]
    simp [addHandler_propagate]
  | none =>
    simp [checkLevel, nameToLevel_Level]

/-- Emission through a state whose named loggers are all unset is gated
exactly by the root level. -/
theorem emitted_iff_root_level (st : LogState) (stack : StackOutcome) (sev : Int)
    (msg : String) (h : ∀ p ∈ st.named, p.2.level = 0) :
    (LOG_log st stack sev msg).emitted ≠ [] ↔ st.root.level ≤ sev := by
  simp only [LOG_log]
  set name := (resolveName st.custom stack).1 with hname
  have h1 : ∀ p ∈ ({ st with custom := (resolveName st.custom stack).2 } : LogState).named,
      p.2.level = 0 := h
  have h2 := create_logger_named_zero _ name h1
  have h3 := getEffectiveLevel_eq_root _ h2 name
  have h4 := create_logger_root_level { st with custom := (resolveName st.custom stack).2 } name
  simp only [isEnabledFor, h3, h4]
  constructor
  · intro hne
    by_contra hle
    simp only [decide_eq_true_eq] at hne
    rw [if_neg (by simpa using hle)] at hne
    exact hne rfl
  · intro hle
    rw [if_pos (by simpa using hle)]
    simp only [ne_eq, List.map_eq_nil_iff]
    exact create_logger_handlers_ne _ name

/-- Closed form of one `_log` call. -/
theorem LOG_log_eq (st : LogState) (stack : StackOutcome) (sev : Int) (msg : String) :
    LOG_log st stack sev msg =
      (let name := (resolveName st.custom stack).1
       let st2 := (create_logger { st with custom := (resolveName st.custom stack).2 } name).1
       let lg := (create_logger { st with custom := (resolveName st.custom stack).2 } name).2
       { st := st2, loggerName := name,
         emitted := if isEnabledFor st2 name sev then
             lg.handlers.map
               (fun _ => ({ name := name, levelno := sev, message := msg } : EmittedRecord))
           else [] }) := by
  rcases he : resolveName st.custom stack with ⟨n, cu⟩
  simp [LOG_log, he]

theorem getLoggerRec_setLoggerRec (st : LogState) (name : String) (l : Logger) :
    getLoggerRec (setLoggerRec st name l) name = l := by
  by_cases h : name = ""
  · subst h
    simp [setLoggerRec, getLoggerRec]
  · simp [setLoggerRec, getLoggerRec, h, lookupLogger_updateLogger_self]

theorem addHandler_handlers_of_mem {l : Logger} {h : Nat} (hm : h ∈ l.handlers) :
    (addHandler l h).handlers = l.handlers := by
  simp [addHandler, hm]

/-- A second acquisition of the same name does not change the handler
list: the shared handler is already attached and `addHandler` skips it. -/
theorem create_logger_twice_handlers (st : LogState) (name : String) :
    (create_logger (create_logger st name).1 name).2.handlers
      = (create_logger st name).2.handlers := by
  have hget := getLoggerRec_setLoggerRec st name
    (addHandler { getLoggerRec st name with propagate := false } sharedHandler)
  show (addHandler { getLoggerRec (create_logger st name).1 name with
      propagate := false } sharedHandler).handlers = _
  rw [show getLoggerRec (create_logger st name).1 name
      = addHandler { getLoggerRec st name with propagate := false } sharedHandler from hget]
  have hmem : sharedHandler ∈
      ({ addHandler { getLoggerRec st name with propagate := false } sharedHandler with
        propagate := false } : Logger).handlers := mem_addHandler _ _
  rw [addHandler_handlers_of_mem hmem]
  rfl

/-! ## Claims -/

/-- C1: for every severity call (debug/info/warning/error/exception) made
while no one-shot custom name is set, the logger name passed to logger
acquisition equals the caller's module name, `:`, the caller's function
name, `:`, the caller's line number — taken from the stack record two
levels above `_log`. -/
theorem C1_stack_derived_name (st : LogState) (frames : List FrameRecord)
    (r : FrameRecord) (m : String) (msg : String)
    (hcustom : st.custom = none) (hr : frames[2]? = some r)
    (hm : r.module = some m) :
    (LOG_debug st (.ok frames) msg).loggerName = m ++ ":" ++ r.function ++ ":" ++ toString r.line
    ∧ (LOG_info st (.ok frames) msg).loggerName = m ++ ":" ++ r.function ++ ":" ++ toString r.line
    ∧ (LOG_warning st (.ok frames) msg).loggerName = m ++ ":" ++ r.function ++ ":" ++ toString r.line
    ∧ (LOG_error st (.ok frames) msg).loggerName = m ++ ":" ++ r.function ++ ":" ++ toString r.line
    ∧ (LOG_exception st (.ok frames) msg).loggerName = m ++ ":" ++ r.function ++ ":" ++ toString r.line := by
  have key : ∀ sev : Int, (LOG_log st (.ok frames) sev msg).loggerName
      = m ++ ":" ++ r.function ++ ":" ++ toString r.line := by
    intro sev
    rw [LOG_log_loggerName, hcustom, resolveName_stack hr, hm]
    rfl
  exact ⟨key _, key _, key _, key _, key _⟩

/-- Witness for C1: a three-deep stack whose caller record is
`mymod.myfunc` at line 42 resolves to `"mymod:myfunc:42"` for all five
severity methods. -/
theorem C1_stack_derived_name_witness :
    (LOG_debug initState (.ok [⟨some "mycroft.util.log", "_log", 101⟩,
        ⟨some "mycroft.util.log", "debug", 77⟩,
        ⟨some "mymod", "myfunc", 42⟩]) "hello").loggerName = "mymod:myfunc:42"
    ∧ (LOG_info initState (.ok [⟨some "mycroft.util.log", "_log", 101⟩,
        ⟨some "mycroft.util.log", "debug", 77⟩,
        ⟨some "mymod", "myfunc", 42⟩]) "hello").loggerName = "mymod:myfunc:42"
    ∧ (LOG_warning initState (.ok [⟨some "mycroft.util.log", "_log", 101⟩,
        ⟨some "mycroft.util.log", "debug", 77⟩,
        ⟨some "mymod", "myfunc", 42⟩]) "hello").loggerName = "mymod:myfunc:42"
    ∧ (LOG_error initState (.ok [⟨some "mycroft.util.log", "_log", 101⟩,
        ⟨some "mycroft.util.log", "debug", 77⟩,
        ⟨some "mymod", "myfunc", 42⟩]) "hello").loggerName = "mymod:myfunc:42"
    ∧ (LOG_exception initState (.ok [⟨some "mycroft.util.log", "_log", 101⟩,
        ⟨some "mycroft.util.log", "debug", 77⟩,
        ⟨some "mymod", "myfunc", 42⟩]) "hello").loggerName = "mymod:myfunc:42" := by
  exact C1_stack_derived_name initState _ ⟨some "mymod", "myfunc", 42⟩ "mymod" "hello"
    rfl rfl rfl

/-- C2: the one-shot custom name is consumed exactly once: the first call
after `LOG(c)` uses `c` as the logger name and clears the override, and
the following plain call — whatever its stack looks like — cannot produce
`c` again (for any colon-free `c` other than the sentinel, which no
stack-derived name can equal). -/
theorem C2_one_shot_override (st : LogState) (c : String)
    (stack1 stack2 : StackOutcome) (sev1 sev2 : Int) (msg1 msg2 : String)
    (hc : ':' ∉ c.data) (hs : c ≠ "HolmesV") :
    (LOG_log (LOG_call st (some c)) stack1 sev1 msg1).loggerName = c
    ∧ (LOG_log (LOG_call st (some c)) stack1 sev1 msg1).st.custom = none
    ∧ (LOG_log ((LOG_log (LOG_call st (some c)) stack1 sev1 msg1).st)
        stack2 sev2 msg2).loggerName ≠ c := by
  refine ⟨?_, LOG_log_custom _ _ _ _, ?_⟩
  · rw [LOG_log_loggerName]
    rfl
  · rw [LOG_log_loggerName, LOG_log_custom]
    exact resolved_stack_name_ne c stack2 hc hs

/-- Witness for C2 at the name `"custom"`. -/
theorem C2_one_shot_override_witness :
    (LOG_log (LOG_call initState (some "custom")) (.ok []) 20 "x").loggerName = "custom"
    ∧ (LOG_log (LOG_call initState (some "custom")) (.ok []) 20 "x").st.custom = none
    ∧ (LOG_log ((LOG_log (LOG_call initState (some "custom")) (.ok []) 20 "x").st)
        (.error ()) 20 "y").loggerName ≠ "custom" := by
  exact C2_one_shot_override initState "custom" (.ok []) (.error ()) 20 20 "x" "y"
    (by decide) (by decide)

/-- C5: if stack inspection fails (the walk raises, or the stack has no
index 2), the severity call does not raise: the resolved name is the
sentinel `"HolmesV"`, every record the call emits carries that name, and
the call still emits when the severity is enabled for the acquired
logger. -/
theorem C5_sentinel_on_failure (st : LogState) (stack : StackOutcome)
    (sev : Int) (msg : String) (hc : st.custom = none)
    (hfail : stack = .error () ∨ ∃ frames, stack = .ok frames ∧ frames[2]? = none) :
    (LOG_log st stack sev msg).loggerName = "HolmesV"
    ∧ (∀ r ∈ (LOG_log st stack sev msg).emitted, r.name = "HolmesV")
    ∧ (getEffectiveLevel (LOG_log st stack sev msg).st "HolmesV" ≤ sev →
        (LOG_log st stack sev msg).emitted ≠ []) := by
  have hres : resolveName st.custom stack = ("HolmesV", none) := by
    rw [hc]
    rcases hfail with h | ⟨frames, hf, h2⟩
    · subst h
      rfl
    · subst hf
      simp [resolveName, h2]
  refine ⟨?_, ?_, ?_⟩
  · rw [LOG_log_loggerName, hres]
  · intro r hr
    simp only [LOG_log_eq, hres] at hr
    split at hr
    · rcases List.mem_map.mp hr with ⟨h, _, hrec⟩
      rw [← hrec]
    · simp at hr
  · intro hle
    simp only [LOG_log_eq, hres] at hle ⊢
    rw [if_pos]
    · simp only [ne_eq, List.map_eq_nil_iff]
      exact create_logger_handlers_ne _ _
    · simpa [isEnabledFor] using hle

/-- Witness for C5: with a failing stack walk from the initial state, the
name is the sentinel and an `ERROR`-severity call emits. -/
theorem C5_sentinel_on_failure_witness :
    (LOG_log initState (.error ()) 40 "x").loggerName = "HolmesV"
    ∧ (LOG_log initState (.error ()) 40 "x").emitted ≠ [] := by
  have h := C5_sentinel_on_failure initState (.error ()) 40 "x" rfl (Or.inl rfl)
  refine ⟨h.1, h.2.2 ?_⟩
  rw [show getEffectiveLevel (LOG_log initState (.error ()) 40 "x").st "HolmesV" = 30 from rfl]
  decide

/-- C9: when the stack walk succeeds but the caller's module cannot be
determined, the module component is the empty string: the resolved name
is `":{function}:{line}"`, and the sentinel fallback is not used. -/
theorem C9_module_undetermined (st : LogState) (frames : List FrameRecord)
    (r : FrameRecord) (sev : Int) (msg : String)
    (hc : st.custom = none) (hr : frames[2]? = some r) (hm : r.module = none) :
    (LOG_log st (.ok frames) sev msg).loggerName = ":" ++ r.function ++ ":" ++ toString r.line
    ∧ (LOG_log st (.ok frames) sev msg).loggerName ≠ "HolmesV" := by
  have h1 : (LOG_log st (.ok frames) sev msg).loggerName
      = "" ++ ":" ++ r.function ++ ":" ++ toString r.line := by
    rw [LOG_log_loggerName, hc, resolveName_stack hr, hm]
    rfl
  rw [h1, show ("" : String) ++ ":" = ":" from rfl]
  exact ⟨rfl, stack_name_ne_sentinel "" r.function r.line⟩

/-- Witness for C9: a caller record with no module resolves to
`":myfunc:42"`. -/
theorem C9_module_undetermined_witness :
    (LOG_log initState (.ok [⟨some "mycroft.util.log", "_log", 101⟩,
        ⟨some "mycroft.util.log", "debug", 77⟩,
        ⟨none, "myfunc", 42⟩]) 20 "x").loggerName = ":myfunc:42"
    ∧ (LOG_log initState (.ok [⟨some "mycroft.util.log", "_log", 101⟩,
        ⟨some "mycroft.util.log", "debug", 77⟩,
        ⟨none, "myfunc", 42⟩]) 20 "x").loggerName ≠ "HolmesV" := by
  exact C9_module_undetermined initState _ ⟨none, "myfunc", 42⟩ 20 "x" rfl rfl rfl

/-- C10: constructing the facade with a `None` name leaves the one-shot
override unset (the override check tests for a non-`None` value), so the
next logging call falls back to stack-based name resolution. -/
theorem C10_none_custom_name (st : LogState) (frames : List FrameRecord)
    (r : FrameRecord) (m : String) (sev : Int) (msg : String)
    (hr : frames[2]? = some r) (hm : r.module = some m) :
    (LOG_call st none).custom = none
    ∧ (LOG_log (LOG_call st none) (.ok frames) sev msg).loggerName
        = m ++ ":" ++ r.function ++ ":" ++ toString r.line := by
  refine ⟨rfl, ?_⟩
  rw [LOG_log_loggerName, show (LOG_call st none).custom = none from rfl,
    resolveName_stack hr, hm]
  rfl

/-- Witness for C10: after `LOG(None)`, resolution uses the stack. -/
theorem C10_none_custom_name_witness :
    (LOG_call initState none).custom = none
    ∧ (LOG_log (LOG_call initState none) (.ok [⟨some "mycroft.util.log", "_log", 101⟩,
        ⟨some "mycroft.util.log", "debug", 77⟩,
        ⟨some "mymod", "myfunc", 42⟩]) 20 "x").loggerName = "mymod:myfunc:42" := by
  exact C10_none_custom_name initState _ ⟨some "mymod", "myfunc", 42⟩ "mymod" 20 "x" rfl rfl

/-- C3: after `init()` with `{log_level: "WARNING"}` (starting from any
state whose named loggers are all unset, as every logger this module
creates is), `debug` and `info` emit nothing, `warning` and `error` emit,
and in general a message is emitted iff its severity is at least the
configured level. -/
theorem C3_level_gating (st st' : LogState) (stack : StackOutcome) (sev : Int)
    (msg : String)
    (hz : ∀ p ∈ st.named, p.2.level = 0)
    (hinit : LOG_init st [("log_level", "WARNING")] = .ok st') :
    (LOG_debug st' stack msg).emitted = []
    ∧ (LOG_info st' stack msg).emitted = []
    ∧ (LOG_warning st' stack msg).emitted ≠ []
    ∧ (LOG_error st' stack msg).emitted ≠ []
    ∧ ((LOG_log st' stack sev msg).emitted ≠ [] ↔ WARNING ≤ sev) := by
  have hval : LOG_init st [("log_level", "WARNING")]
      = .ok { level := .num 30, custom := st.custom,
              root := { level := 30, propagate := false,
                        handlers := (addHandler { st.root with propagate := false }
                          sharedHandler).handlers },
              named := st.named } := by
    rw [LOG_init_eq]
    rfl
  rw [hval, Except.ok.injEq] at hinit
  subst hinit
  have key : ∀ s : Int,
      (LOG_log
          { level := .num 30, custom := st.custom,
            root := { level := 30, propagate := false,
                      handlers := (addHandler { st.root with propagate := false }
                        sharedHandler).handlers },
            named := st.named }
          stack s msg).emitted ≠ [] ↔ (30 : Int) ≤ s := by
    intro s
    exact emitted_iff_root_level _ stack s msg hz
  refine ⟨?_, ?_, (key _).mpr (by decide), (key _).mpr (by decide), key sev⟩
  · exact not_ne_iff.mp fun hne => absurd ((key _).mp hne) (by decide)
  · exact not_ne_iff.mp fun hne => absurd ((key _).mp hne) (by decide)

/-- Witness for C3 from the initial state, at severity 25 (between INFO
and WARNING). -/
theorem C3_level_gating_witness :
    (LOG_debug ⟨.num 30, none, ⟨30, false, [0]⟩, []⟩ (.ok []) "m").emitted = []
    ∧ (LOG_info ⟨.num 30, none, ⟨30, false, [0]⟩, []⟩ (.ok []) "m").emitted = []
    ∧ (LOG_warning ⟨.num 30, none, ⟨30, false, [0]⟩, []⟩ (.ok []) "m").emitted ≠ []
    ∧ (LOG_error ⟨.num 30, none, ⟨30, false, [0]⟩, []⟩ (.ok []) "m").emitted ≠ []
    ∧ ((LOG_log ⟨.num 30, none, ⟨30, false, [0]⟩, []⟩ (.ok []) 25 "m").emitted ≠ []
        ↔ WARNING ≤ 25) := by
  exact C3_level_gating initState _ (.ok []) 25 "m" (by simp [initState]) rfl

/-- C4: when `init()` runs with no `log_level` key, or with `log_level`
mapped to the empty (falsy) value, the effective level is the numeric
level for `INFO` (20), stored on `LOG.level` and applied to the logger
acquired for the root-equivalent name `""`. -/
theorem C4_default_level (st st' : LogState) (config : List (String × String))
    (h : lookupStr config "log_level" = none ∨ lookupStr config "log_level" = some "")
    (hinit : LOG_init st config = .ok st') :
    st'.level = PyLevel.num 20 ∧ (getLoggerRec st' "").level = 20 := by
  have hval : LOG_init st config
      = .ok { level := .num 20, custom := st.custom,
              root := { level := 20, propagate := false,
                        handlers := (addHandler { st.root with propagate := false }
                          sharedHandler).handlers },
              named := st.named } := by
    rw [LOG_init_eq]
    rcases h with h | h <;> rw [h] <;> rfl
  rw [hval, Except.ok.injEq] at hinit
  subst hinit
  exact ⟨rfl, rfl⟩

/-- Witness for C4: a configuration without any `log_level` key. -/
theorem C4_default_level_witness :
    (⟨.num 20, none, ⟨20, false, [0]⟩, []⟩ : LogState).level = PyLevel.num 20
    ∧ (getLoggerRec ⟨.num 20, none, ⟨20, false, [0]⟩, []⟩ "").level = 20 := by
  exact C4_default_level initState ⟨.num 20, none, ⟨20, false, [0]⟩, []⟩
    [("sound", "on")] (Or.inl rfl) rfl

/-- C6 counterexample: the rendered process-id field for pid `123456` is
six characters, not exactly five, and the level field for `"INFO"` is
padded on the right (left-aligned), not on the left — so the claimed
"left-padded/truncated to exactly" rule does not describe the format. -/
theorem C6_counterexample :
    formatLine "12:00:00.000" "INFO" 123456 "mymod:myfunc:42" "hello"
      = "12:00:00.000 | INFO     | 123456 | mymod:myfunc:42 | hello"
    ∧ (padLeftTo 5 (toString (123456 : Nat))).length = 6
    ∧ padRightTo 8 "INFO" = "INFO    "
    ∧ padRightTo 8 "INFO" ≠ "    INFO" := by
  exact ⟨rfl, rfl, rfl, by decide⟩

/-- C6 (amended): every rendered line is
`{asctime} | {level field} | {pid field} | {name} | {message}` where the
level field is the level name left-aligned and space-padded on the right
to a minimum width of 8, the pid field is the process id right-aligned
and space-padded on the left to a minimum width of 5 (field length is
`max width (value length)` — values longer than the width are not
truncated), and the timestamp is the second-precision time followed by
`.` and the milliseconds zero-padded to three digits. -/
theorem C6_line_format (asctime lvl : String) (pid : Nat) (name msg secs : String)
    (msecs : Nat) :
    formatLine asctime lvl pid name msg
      = asctime ++ " | " ++ padRightTo 8 lvl ++ " | " ++ padLeftTo 5 (toString pid)
        ++ " | " ++ name ++ " | " ++ msg
    ∧ (padRightTo 8 lvl).length = max 8 lvl.length
    ∧ (padLeftTo 5 (toString pid)).length = max 5 (toString pid).length
    ∧ (padRightTo 8 lvl).data = lvl.data ++ List.replicate (8 - lvl.length) ' '
    ∧ (padLeftTo 5 (toString pid)).data
        = List.replicate (5 - (toString pid).length) ' ' ++ (toString pid).data
    ∧ formatAsctime secs msecs = secs ++ "." ++ padZeroTo 3 (toString msecs)
    ∧ (padZeroTo 3 (toString msecs)).length = max 3 (toString msecs).length := by
  have len_eq : ∀ s : String, s.length = s.data.length := fun _ => rfl
  have hmkData : ∀ l : List Char, (String.mk l).data = l := fun _ => rfl
  refine ⟨rfl, ?_, ?_, ?_, ?_, rfl, ?_⟩
  · simp only [padRightTo, len_eq, String.data_append, hmkData, List.length_append,
      List.length_replicate]
    omega
  · simp only [padLeftTo, len_eq, String.data_append, hmkData, List.length_append,
      List.length_replicate]
    omega
  · simp only [padRightTo, String.data_append, hmkData]
  · simp only [padLeftTo, String.data_append, hmkData]
  · simp only [padZeroTo, len_eq, String.data_append, hmkData, List.length_append,
      List.length_replicate]
    omega

/-- C7 counterexample: two consecutive acquisitions of the same name from
the initial state leave exactly one copy of the shared handler attached —
duplicate handlers do not accumulate, because the underlying `addHandler`
skips a handler that is already attached. -/
theorem C7_counterexample :
    (create_logger (create_logger initState "x").1 "x").2.handlers = [sharedHandler]
    ∧ (create_logger (create_logger initState "x").1 "x").2.handlers.length ≠ 2
    ∧ lookupLogger (create_logger (create_logger initState "x").1 "x").1.named "x"
        = some { level := 0, propagate := false, handlers := [sharedHandler] } := by
  exact ⟨rfl, by decide, rfl⟩

/-- C7 (amended): on every acquisition the code fetches-or-creates the
logger for that exact name, switches propagation off, and calls
`addHandler` with the shared handler unconditionally; but `addHandler`
itself is idempotent for an already-attached handler object, so a
repeated acquisition of the same name leaves the handler list unchanged
(exactly one copy of the shared handler). -/
theorem C7_handler_idempotent (st : LogState) (name : String) :
    (create_logger st name).2.propagate = false
    ∧ sharedHandler ∈ (create_logger st name).2.handlers
    ∧ getLoggerRec (create_logger st name).1 name = (create_logger st name).2
    ∧ (create_logger (create_logger st name).1 name).2.handlers
        = (create_logger st name).2.handlers := by
  refine ⟨?_, mem_addHandler _ _, getLoggerRec_setLoggerRec _ _ _,
    create_logger_twice_handlers st name⟩
  rw [show (create_logger st name).2 = addHandler
    { getLoggerRec st name with propagate := false } sharedHandler from rfl,
    addHandler_propagate]

/-- C8 counterexample: with the unrecognized level name `"BOGUS"`,
`getLevelName` returns the string `"Level BOGUS"` — not the number 0 —
and `init()` raises `ValueError("Unknown level: Level BOGUS")` from
`setLevel` instead of completing. -/
theorem C8_counterexample :
    LOG_init initState [("log_level", "BOGUS")] = .error "Unknown level: Level BOGUS"
    ∧ getLevelName "BOGUS" ≠ PyLevel.num 0
    ∧ getLevelName "BOGUS" = PyLevel.txt "Level BOGUS" := by
  exact ⟨rfl, by decide, rfl⟩

/-- C8 (amended): when `init()` is given an unrecognized, non-empty level
name, `getLevelName` maps it to the string `"Level " + name` (not a
number), and `init()` then raises `ValueError("Unknown level: ...")` from
`setLevel` on the root-equivalent logger, so `init()` does not complete. -/
theorem C8_unknown_level_raises (st : LogState) (config : List (String × String))
    (s : String) (hcfg : lookupStr config "log_level" = some s) (hs : ¬s = "")
    (hn : nameToLevel s = none) :
    getLevelName s = PyLevel.txt ("Level " ++ s)
    ∧ LOG_init st config = .error ("Unknown level: " ++ ("Level " ++ s)) := by
  constructor
  · simp [getLevelName, hn]
  · rw [LOG_init_eq, hcfg]
    simp only [Option.getD_some, if_neg hs, hn]

/-- Witness for C8 (amended) at the configured name `"BOGUS"`. -/
theorem C8_unknown_level_raises_witness :
    getLevelName "BOGUS" = PyLevel.txt ("Level " ++ "BOGUS")
    ∧ LOG_init initState [("log_level", "BOGUS")]
        = .error ("Unknown level: " ++ ("Level " ++ "BOGUS")) := by
  exact C8_unknown_level_raises initState [("log_level", "BOGUS")] "BOGUS"
    rfl (by decide) rfl

end HolmesV
